import Mathlib

/-!
Shallow embedding, in Lean 4, of the market signal-detection engine of the
jejakcuan repository, together with proofs about it:

* the pump-and-dump detector, `apps/ml/src/jejakcuan_ml/detection/pump_detector.py`;
* the statistical anomaly detector, `apps/ml/src/jejakcuan_ml/models/anomaly.py`;
* the DTW pattern matcher, `apps/ml/src/jejakcuan_ml/patterns/dtw.py`.

Modelling conventions:

* Python floats are modelled as exact rationals (`ℚ`); Python ints as `ℤ`
  or `ℕ` as appropriate.  Division follows Lean's `x / 0 = 0` convention in
  places where the source guards the denominator, which every claim below is
  insensitive to.
* Python f-strings that interpolate numeric values are modelled as inductive
  datatypes carrying the interpolated values (`Evidence`, `AnomalyText`,
  `MessageData`) rather than as formatted text: the claims are about which
  values appear, never about decimal formatting.
* `datetime` timestamps and the informational `metadata` dictionaries are
  omitted: no claim mentions them and no control flow depends on them.
* numpy elementwise arithmetic between arrays of possibly different lengths
  is modelled by `zipB`, which implements numpy's 1-d broadcasting rule and
  returns `Except.error` exactly where numpy raises a broadcast `ValueError`.
* `np.std` takes a real square root; it is modelled by an arbitrary function
  `sq : ℚ → ℚ` supplied as a parameter, and every theorem below is proved
  for all such functions (hence in particular for any rational approximation
  of the square root, and the claims proved this way are insensitive to it).
-/

namespace Jejakcuan

/-! ## Pump-and-dump detector (`detection/pump_detector.py`) -/

/-- `PumpSignalType` in `pump_detector.py`. -/
inductive PumpSignalType where
  | social_spike
  | volume_spike
  | price_spike
  | coordinated_posts
  | new_accounts
  | keyword_pattern
  | time_pattern
  deriving DecidableEq

/-- `AlertSeverity` in `pump_detector.py`. -/
inductive AlertSeverity where
  | low
  | medium
  | high
  | critical
  deriving DecidableEq

/-- The `evidence` f-strings of `pump_detector.py`, one constructor per
template, carrying the interpolated values instead of formatted text. -/
inductive Evidence where
  | socialMentions (post_count : ℤ) (baseline : ℚ)
  | volumeTimesAvg (volume_mult : ℚ)
  | priceUp (price_change_pct : ℚ)
  | avgAccountAge (avg_author_age_days : ℚ)
  | pumpKeywords (hits : List String)
  | postsPerAuthor (posts_per_author : ℚ)
  deriving DecidableEq

/-- `PumpSignal` (timestamp and metadata omitted, see module docstring). -/
structure PumpSignal where
  signal_type : PumpSignalType
  symbol : String
  confidence : ℚ
  evidence : Evidence
  deriving DecidableEq

/-- The message f-string built by `PumpDetector._generate_message`, as
structured data: the symbol, the severity and the `signal_summaries` list. -/
structure MessageData where
  symbol : String
  severity : AlertSeverity
  summaries : List Evidence
  deriving DecidableEq

/-- `PumpAlert` (timestamp omitted). -/
structure PumpAlert where
  symbol : String
  severity : AlertSeverity
  confidence : ℚ
  signals : List PumpSignal
  message : MessageData
  recommended_action : String
  deriving DecidableEq

/-- `SocialMetrics`. -/
structure SocialMetrics where
  symbol : String
  post_count : ℤ
  unique_authors : ℤ
  avg_author_age_days : ℚ
  sentiment_score : ℚ
  keyword_flags : List String
  time_window_hours : ℚ
  deriving DecidableEq

/-- `MarketMetrics`. -/
structure MarketMetrics where
  symbol : String
  current_price : ℚ
  price_change_pct : ℚ
  volume : ℤ
  avg_volume : ℤ
  volume_ratio : ℚ
  market_cap : Option ℚ
  deriving DecidableEq

/-- `PumpDetector.PUMP_KEYWORDS` (a Python `set`; only membership is ever
used on it by the code paths modelled here, so the order below is
irrelevant). -/
def PUMP_KEYWORDS : List String :=
  ["buruan beli", "cepat beli", "jangan sampai ketinggalan", "last chance",
   "limited time", "hari ini saja", "sekarang atau tidak",
   "pasti naik", "guaranteed", "100% profit", "no risk", "tanpa risiko",
   "insider info", "info dalam", "rahasia", "secret", "belum tersebar",
   "to the moon", "moon", "1000%", "10x", "100x", "terbang", "rocket",
   "mari borong", "ayo beli bareng", "pompa", "pump it"]

/-- `PumpDetector.LEGITIMATE_KEYWORDS`. -/
def LEGITIMATE_KEYWORDS : List String :=
  ["laporan keuangan", "financial report", "earning", "fundamental",
   "dividen", "dividend", "annual report", "quarterly", "analyst"]

/-- The constructor parameters of `PumpDetector`, together with the
per-symbol baseline caches `_social_baselines` / `_volume_baselines`
(Python dicts, modelled as association lists where the first binding for a
key is its current value). -/
structure PumpDetector where
  social_spike_threshold : ℚ
  volume_spike_threshold : ℚ
  price_spike_threshold : ℚ
  min_confidence_threshold : ℚ
  new_account_days : ℤ
  social_baselines : List (String × ℚ)
  volume_baselines : List (String × ℚ)
  deriving DecidableEq

/-- A `PumpDetector()` constructed with all default arguments. -/
def defaultDetector : PumpDetector :=
  ⟨3, 5, 3/20, 1/2, 30, [], []⟩

/-- Python `dict.get(symbol, default)` on an association list. -/
def baselineGet (baselines : List (String × ℚ)) (symbol : String) : Option ℚ :=
  (baselines.find? (fun p => p.1 == symbol)).map (fun p => p.2)

/-- `PumpDetector.update_baseline` (dict assignment modelled by prepending,
which shadows any earlier binding under `baselineGet`). -/
def update_baseline (det : PumpDetector) (symbol : String)
    (social_avg volume_avg : ℚ) : PumpDetector :=
  ⟨det.social_spike_threshold, det.volume_spike_threshold,
   det.price_spike_threshold, det.min_confidence_threshold,
   det.new_account_days,
   (symbol, social_avg) :: det.social_baselines,
   (symbol, volume_avg) :: det.volume_baselines⟩

/-- `baseline = historical_social or self._social_baselines.get(symbol, 10)`
in `PumpDetector.analyze`: Python `or` falls through to the right operand
when `historical_social` is `None` *or* the float `0.0` (both falsy). -/
def socialBaseline (baselines : List (String × ℚ)) (historical_social : Option ℚ)
    (symbol : String) : ℚ :=
  match historical_social with
  | some h => if h = 0 then (baselineGet baselines symbol).getD 10 else h
  | none => (baselineGet baselines symbol).getD 10

/-- `keyword_hits = [kw for kw in social.keyword_flags if kw in self.PUMP_KEYWORDS]`. -/
def pumpHits (flags : List String) : List String :=
  flags.filter (fun kw => PUMP_KEYWORDS.contains kw)

/-- Signals 1-6 of `PumpDetector.analyze` (lines 180-258), in the order the
source appends them. -/
def analyzeSignals (det : PumpDetector) (social : SocialMetrics)
    (market : MarketMetrics) (historical_social : Option ℚ) : List PumpSignal :=
  let symbol := social.symbol
  let baseline := socialBaseline det.social_baselines historical_social symbol
  let s1 : List PumpSignal :=
    if (social.post_count : ℚ) > baseline * det.social_spike_threshold then
      [⟨.social_spike, symbol, min (((social.post_count : ℚ) / baseline - 1) / 5) 1,
        .socialMentions social.post_count baseline⟩]
    else []
  let s2 : List PumpSignal :=
    if market.volume_ratio ≥ det.volume_spike_threshold then
      [⟨.volume_spike, symbol, min ((market.volume_ratio - 1) / 10) 1,
        .volumeTimesAvg market.volume_ratio⟩]
    else []
  let s3 : List PumpSignal :=
    if market.price_change_pct ≥ det.price_spike_threshold then
      [⟨.price_spike, symbol, min (market.price_change_pct / (3/10)) 1,
        .priceUp market.price_change_pct⟩]
    else []
  let s4 : List PumpSignal :=
    if social.avg_author_age_days < (det.new_account_days : ℚ) then
      [⟨.new_accounts, symbol,
        1 - social.avg_author_age_days / (det.new_account_days : ℚ),
        .avgAccountAge social.avg_author_age_days⟩]
    else []
  let keyword_hits := pumpHits social.keyword_flags
  let s5 : List PumpSignal :=
    if keyword_hits.isEmpty then []
    else
      [⟨.keyword_pattern, symbol, min ((keyword_hits.length : ℚ) / 5) 1,
        .pumpKeywords (keyword_hits.take 3)⟩]
  let s6 : List PumpSignal :=
    if social.unique_authors > 0 then
      let post_per_author := (social.post_count : ℚ) / (social.unique_authors : ℚ)
      if post_per_author > 3 then
        [⟨.coordinated_posts, symbol, min ((post_per_author - 3) / 7) 1,
          .postsPerAuthor post_per_author⟩]
      else []
    else []
  s1 ++ s2 ++ s3 ++ s4 ++ s5 ++ s6

/-- The `weights` dictionary of `PumpDetector.analyze`, with the
`weights.get(type, 0.1)` default for types outside the dictionary. -/
def signalWeight : PumpSignalType → ℚ
  | .social_spike => 1/5
  | .volume_spike => 1/4
  | .price_spike => 1/5
  | .new_accounts => 1/10
  | .keyword_pattern => 3/20
  | .coordinated_posts => 1/10
  | .time_pattern => 1/10

/-- `total_weight = sum(weights.get(s.signal_type, 0.1) for s in signals)`. -/
def totalWeight (signals : List PumpSignal) : ℚ :=
  (signals.map (fun s => signalWeight s.signal_type)).sum

/-- `weighted_confidence` before the legitimate-keyword adjustment. -/
def rawWeightedConfidence (signals : List PumpSignal) : ℚ :=
  (signals.map (fun s => s.confidence * signalWeight s.signal_type)).sum /
    totalWeight signals

/-- `legitimate_count = sum(1 for kw in social.keyword_flags if kw in LEGITIMATE_KEYWORDS)`. -/
def legitimateCount (flags : List String) : ℕ :=
  (flags.filter (fun kw => LEGITIMATE_KEYWORDS.contains kw)).length

/-- `weighted_confidence` after the `*= 0.7` legitimate-keyword dampening. -/
def aggregateConfidence (signals : List PumpSignal) (flags : List String) : ℚ :=
  if 0 < legitimateCount flags then rawWeightedConfidence signals * (7/10)
  else rawWeightedConfidence signals

/-- The aggregate (pre-gate) weighted confidence a call to
`PumpDetector.analyze` computes, when it computes one (`none` when no
signal fired, in which case the source returns early). -/
def weightedConfidenceOf (det : PumpDetector) (social : SocialMetrics)
    (market : MarketMetrics) (historical_social : Option ℚ) : Option ℚ :=
  let signals := analyzeSignals det social market historical_social
  if signals.isEmpty then none
  else some (aggregateConfidence signals social.keyword_flags)

/-- `PumpDetector._determine_severity` (`signal_count` and `market` are
accepted and ignored, as in the source). -/
def determineSeverity (confidence : ℚ) (signal_count : ℕ)
    (market : MarketMetrics) : AlertSeverity :=
  if confidence ≥ 9/10 then .critical
  else if confidence ≥ 3/4 then .high
  else if confidence ≥ 3/5 then .medium
  else .low

/-- `PumpDetector._generate_message`:
`signal_summaries = [s.evidence for s in signals[:3]]`, joined into the
message, modelled as structured `MessageData`. -/
def generateMessage (symbol : String) (signals : List PumpSignal)
    (severity : AlertSeverity) : MessageData :=
  ⟨symbol, severity, (signals.take 3).map (fun s => s.evidence)⟩

/-- `PumpDetector._get_recommended_action`. -/
def recommendedAction (severity : AlertSeverity) : String :=
  match severity with
  | .critical => "Avoid trading. Report to authorities if applicable."
  | .high => "Avoid buying. Wait for activity to normalize."
  | .medium => "Exercise caution. Do additional research."
  | .low => "Monitor situation. Normal trading with awareness."

/-- `PumpDetector.analyze`. -/
def analyze (det : PumpDetector) (social : SocialMetrics)
    (market : MarketMetrics) (historical_social : Option ℚ) : Option PumpAlert :=
  let signals := analyzeSignals det social market historical_social
  if signals.isEmpty then none
  else
    let weighted_confidence := aggregateConfidence signals social.keyword_flags
    if weighted_confidence < det.min_confidence_threshold then none
    else
      let severity := determineSeverity weighted_confidence signals.length market
      some ⟨social.symbol, severity, weighted_confidence, signals,
        generateMessage social.symbol signals severity,
        recommendedAction severity⟩

/-! ### Facts about the weighted aggregation -/

lemma signalWeight_pos (t : PumpSignalType) : 0 < signalWeight t := by
  cases t <;> norm_num [signalWeight]

lemma totalWeight_nonneg (signals : List PumpSignal) : 0 ≤ totalWeight signals := by
  induction signals with
  | nil => simp [totalWeight]
  | cons x xs ih =>
    have hx := signalWeight_pos x.signal_type
    simp only [totalWeight, List.map_cons, List.sum_cons] at ih ⊢
    linarith

lemma totalWeight_pos (x : PumpSignal) (xs : List PumpSignal) :
    0 < totalWeight (x :: xs) := by
  have hx := signalWeight_pos x.signal_type
  have hxs := totalWeight_nonneg xs
  simp only [totalWeight, List.map_cons, List.sum_cons] at hxs ⊢
  linarith

lemma weightedSum_le (T : ℚ) (l : List PumpSignal)
    (h : ∀ s ∈ l, s.confidence < T) :
    (l.map (fun s => s.confidence * signalWeight s.signal_type)).sum ≤
      T * totalWeight l := by
  induction l with
  | nil => simp [totalWeight]
  | cons x xs ih =>
    have hx : x.confidence < T := h x (by simp)
    have hw := signalWeight_pos x.signal_type
    have ih' := ih (fun s hs => h s (by simp [hs]))
    simp only [totalWeight, List.map_cons, List.sum_cons] at ih' ⊢
    rw [mul_add]
    exact add_le_add (mul_le_mul_of_nonneg_right (le_of_lt hx) (le_of_lt hw)) ih'

lemma rawWeightedConfidence_lt (T : ℚ) (x : PumpSignal) (xs : List PumpSignal)
    (h : ∀ s ∈ x :: xs, s.confidence < T) :
    rawWeightedConfidence (x :: xs) < T := by
  have hw := signalWeight_pos x.signal_type
  have hx : x.confidence < T := h x (by simp)
  have hxs := weightedSum_le T xs (fun s hs => h s (by simp [hs]))
  unfold rawWeightedConfidence
  rw [div_lt_iff₀ (totalWeight_pos x xs)]
  simp only [totalWeight, List.map_cons, List.sum_cons] at hxs ⊢
  rw [mul_add]
  exact add_lt_add_of_lt_of_le (mul_lt_mul_of_pos_right hx hw) hxs

lemma aggregateConfidence_lt (T : ℚ) (hT : 0 ≤ T) (x : PumpSignal)
    (xs : List PumpSignal) (flags : List String)
    (h : ∀ s ∈ x :: xs, s.confidence < T) :
    aggregateConfidence (x :: xs) flags < T := by
  have hraw := rawWeightedConfidence_lt T x xs h
  unfold aggregateConfidence
  split
  · rcases le_or_lt 0 (rawWeightedConfidence (x :: xs)) with h0 | h0
    · have h1 : rawWeightedConfidence (x :: xs) * (7/10) ≤
          rawWeightedConfidence (x :: xs) * 1 :=
        mul_le_mul_of_nonneg_left (by norm_num) h0
      rw [mul_one] at h1
      linarith
    · have h1 : rawWeightedConfidence (x :: xs) * (7/10) < 0 :=
        mul_neg_of_neg_of_pos h0 (by norm_num)
      linarith
  · exact hraw

/-- **C1.** For every `SocialMetrics` and `MarketMetrics` input to
`PumpDetector.analyze` in which every individual generated signal's
confidence is strictly below `min_confidence_threshold` (a confidence
threshold, hence nonnegative), `analyze` returns `none` — no alert —
regardless of how many signals fired. -/
theorem analyze_none_of_low_signal_confidences (det : PumpDetector)
    (social : SocialMetrics) (market : MarketMetrics)
    (historical_social : Option ℚ)
    (hT : 0 ≤ det.min_confidence_threshold)
    (h : ∀ s ∈ analyzeSignals det social market historical_social,
      s.confidence < det.min_confidence_threshold) :
    analyze det social market historical_social = none := by
  unfold analyze
  cases hsig : analyzeSignals det social market historical_social with
  | nil => simp [hsig]
  | cons x xs =>
    rw [hsig] at h
    have hlt := aggregateConfidence_lt det.min_confidence_threshold hT x xs
      social.keyword_flags h
    simp [hsig, hlt]

/-- Witness for C1 at a concrete input: the default detector, a social
spike of 31 posts against the default baseline 10 (a single signal of
confidence 21/50 < 1/2), and a quiet market. -/
theorem analyze_none_of_low_signal_confidences_witness :
    (0:ℚ) ≤ defaultDetector.min_confidence_threshold ∧
    (∀ s ∈ analyzeSignals defaultDetector ⟨"W1", 31, 31, 100, 0, [], 24⟩
        ⟨"W1", 100, 0, 100, 100, 1, none⟩ none,
      s.confidence < defaultDetector.min_confidence_threshold) ∧
    analyze defaultDetector ⟨"W1", 31, 31, 100, 0, [], 24⟩
      ⟨"W1", 100, 0, 100, 100, 1, none⟩ none = none := by
  have hsig : analyzeSignals defaultDetector ⟨"W1", 31, 31, 100, 0, [], 24⟩
      ⟨"W1", 100, 0, 100, 100, 1, none⟩ none =
      [⟨.social_spike, "W1", 21/50, .socialMentions 31 10⟩] := by
    norm_num [analyzeSignals, socialBaseline, baselineGet, defaultDetector,
      pumpHits, min_def]
  refine ⟨by norm_num [defaultDetector], ?_, ?_⟩
  · rw [hsig]
    intro s hs
    rw [List.mem_singleton] at hs
    subst hs
    norm_num [defaultDetector]
  · exact analyze_none_of_low_signal_confidences _ _ _ _
      (by norm_num [defaultDetector])
      (by rw [hsig]; intro s hs; rw [List.mem_singleton] at hs; subst hs
          norm_num [defaultDetector])

/-- **C8.** With the default configuration (`social_spike_threshold = 3`),
no cached baseline and no historical value (so the effective baseline is
the constant default 10), an input with `post_count = 50` generates a
`social_spike` signal with confidence `min((50/10 - 1)/5, 1) = 0.8`. -/
theorem social_spike_scenario :
    analyzeSignals defaultDetector ⟨"TEST", 50, 50, 100, 0, [], 24⟩
      ⟨"TEST", 100, 0, 1000, 1000, 1, none⟩ none =
      [⟨.social_spike, "TEST", min ((50/10 - 1) / 5) 1, .socialMentions 50 10⟩] ∧
    min (((50:ℚ)/10 - 1) / 5) 1 = 4/5 := by
  constructor
  · norm_num [analyzeSignals, socialBaseline, baselineGet, defaultDetector,
      pumpHits, min_def]
  · norm_num [min_def]

/-- **C9.** Passing `historical_social = 0.0` to `PumpDetector.analyze` is
treated exactly like not passing it (Python's `or` treats `0.0` as falsy):
the whole analysis is unchanged, the social baseline falls back to the
cached per-symbol value, and to the constant default 10 for a symbol with
no cached value. -/
theorem historical_social_zero_falls_back :
    (∀ (det : PumpDetector) (social : SocialMetrics) (market : MarketMetrics),
      analyze det social market (some 0) = analyze det social market none) ∧
    (∀ (baselines : List (String × ℚ)) (symbol : String),
      socialBaseline baselines (some 0) symbol =
        socialBaseline baselines none symbol) ∧
    (∀ (baselines : List (String × ℚ)) (symbol : String),
      baselineGet baselines symbol = none →
        socialBaseline baselines (some 0) symbol = 10) := by
  have hb : ∀ (baselines : List (String × ℚ)) (symbol : String),
      socialBaseline baselines (some 0) symbol =
        socialBaseline baselines none symbol := by
    intro baselines symbol
    simp [socialBaseline]
  refine ⟨?_, hb, ?_⟩
  · intro det social market
    unfold analyze
    rw [show analyzeSignals det social market (some 0) =
        analyzeSignals det social market none by
      unfold analyzeSignals
      simp only [hb]]
  · intro baselines symbol hnone
    simp [socialBaseline, hnone]

/-- Witness for C9 at a concrete input: an empty cache and the concrete
symbol `"W9"`. -/
theorem historical_social_zero_falls_back_witness :
    analyze defaultDetector ⟨"W9", 50, 50, 100, 0, [], 24⟩
      ⟨"W9", 100, 0, 1000, 1000, 1, none⟩ (some 0) =
      analyze defaultDetector ⟨"W9", 50, 50, 100, 0, [], 24⟩
        ⟨"W9", 100, 0, 1000, 1000, 1, none⟩ none ∧
    socialBaseline [] (some 0) "W9" = socialBaseline [] none "W9" ∧
    (baselineGet [] "W9" = none ∧ socialBaseline [] (some 0) "W9" = 10) :=
  ⟨historical_social_zero_falls_back.1 _ _ _,
   historical_social_zero_falls_back.2.1 _ _,
   by simp [baselineGet],
   historical_social_zero_falls_back.2.2 [] "W9" (by simp [baselineGet])⟩

/-- **C5.** For two `analyze` inputs identical except for the keyword
flags, where the two flag lists produce the same pump-keyword hits but one
contains at least one legitimate keyword and the other none, the aggregate
(pre-gate) weighted confidence of the run with the legitimate keyword is
exactly `0.70` times the one without it. -/
theorem legitimate_keyword_dampens_by_point_seven (det : PumpDetector)
    (market : MarketMetrics) (historical_social : Option ℚ) (symbol : String)
    (post_count unique_authors : ℤ) (avg_age sentiment tw : ℚ)
    (flags1 flags2 : List String)
    (hpump : pumpHits flags1 = pumpHits flags2)
    (h1 : 0 < legitimateCount flags1) (h2 : legitimateCount flags2 = 0) :
    weightedConfidenceOf det
        ⟨symbol, post_count, unique_authors, avg_age, sentiment, flags1, tw⟩
        market historical_social =
      (weightedConfidenceOf det
          ⟨symbol, post_count, unique_authors, avg_age, sentiment, flags2, tw⟩
          market historical_social).map (fun c => c * (7/10)) := by
  have hsig : analyzeSignals det
      ⟨symbol, post_count, unique_authors, avg_age, sentiment, flags1, tw⟩
      market historical_social =
      analyzeSignals det
        ⟨symbol, post_count, unique_authors, avg_age, sentiment, flags2, tw⟩
        market historical_social := by
    unfold analyzeSignals
    rw [hpump]
  unfold weightedConfidenceOf
  rw [hsig]
  cases hsigs : analyzeSignals det
      ⟨symbol, post_count, unique_authors, avg_age, sentiment, flags2, tw⟩
      market historical_social with
  | nil => simp
  | cons x xs =>
    simp only [List.isEmpty_cons, if_neg Bool.false_ne_true, Option.map_some]
    simp [aggregateConfidence, h1, h2]

/-- Stable descending insertion sort by a rational key: the model of
Python's stable `sorted(..., key=..., reverse=True)` (two stable sorts by
the same key agree on every input, so insertion sort is a faithful model
of CPython's Timsort here). -/
def insertDescBy {α : Type} (key : α → ℚ) (x : α) : List α → List α
  | [] => [x]
  | y :: ys => if key x ≥ key y then x :: y :: ys else y :: insertDescBy key x ys

/-- See `insertDescBy`. -/
def sortDescBy {α : Type} (key : α → ℚ) : List α → List α
  | [] => []
  | x :: xs => insertDescBy key x (sortDescBy key xs)

/-- A concrete `analyze` input on which four signals fire with confidences
`[21/50, 7/10, 1/2, 1]` in generation order. -/
def cexSocial : SocialMetrics := ⟨"CEX", 31, 1, 100, 0, [], 24⟩

/-- Market side of the same concrete input. -/
def cexMarket : MarketMetrics := ⟨"CEX", 100, 3/20, 800, 100, 8, none⟩

/-- The four signals `analyze` generates on `cexSocial`/`cexMarket`. -/
def cexSignals : List PumpSignal :=
  [⟨.social_spike, "CEX", 21/50, .socialMentions 31 10⟩,
   ⟨.volume_spike, "CEX", 7/10, .volumeTimesAvg 8⟩,
   ⟨.price_spike, "CEX", 1/2, .priceUp (3/20)⟩,
   ⟨.coordinated_posts, "CEX", 1, .postsPerAuthor 31⟩]

/-- The alert `analyze` returns on `cexSocial`/`cexMarket`. -/
def cexAlert : PumpAlert :=
  ⟨"CEX", .medium, 153/250, cexSignals,
   ⟨"CEX", .medium, [.socialMentions 31 10, .volumeTimesAvg 8, .priceUp (3/20)]⟩,
   "Exercise caution. Do additional research."⟩

lemma cex_analyzeSignals :
    analyzeSignals defaultDetector cexSocial cexMarket none = cexSignals := by
  norm_num [analyzeSignals, cexSocial, cexMarket, defaultDetector,
    socialBaseline, baselineGet, pumpHits, cexSignals, min_def]

lemma cex_analyze :
    analyze defaultDetector cexSocial cexMarket none = some cexAlert := by
  unfold analyze
  rw [cex_analyzeSignals]
  norm_num [cexSignals, aggregateConfidence, legitimateCount, cexSocial,
    rawWeightedConfidence, totalWeight, signalWeight, determineSeverity,
    generateMessage, recommendedAction, cexAlert, defaultDetector]

/-- Witness for C5 at a concrete input: flags `["moon", "dividen"]`
against flags `["moon"]` (same single pump hit `"moon"`; `"dividen"` is a
legitimate keyword). -/
theorem legitimate_keyword_dampens_witness :
    pumpHits ["moon", "dividen"] = pumpHits ["moon"] ∧
    0 < legitimateCount ["moon", "dividen"] ∧
    legitimateCount ["moon"] = 0 ∧
    weightedConfidenceOf defaultDetector
        ⟨"W5", 50, 50, 100, 0, ["moon", "dividen"], 24⟩
        ⟨"W5", 100, 0, 1000, 1000, 1, none⟩ none =
      (weightedConfidenceOf defaultDetector
          ⟨"W5", 50, 50, 100, 0, ["moon"], 24⟩
          ⟨"W5", 100, 0, 1000, 1000, 1, none⟩ none).map (fun c => c * (7/10)) :=
  ⟨by decide, by decide, by decide,
   legitimate_keyword_dampens_by_point_seven _ _ _ _ _ _ _ _ _ _ _
     (by decide) (by decide) (by decide)⟩

/-- **C7 counterexample.** At a concrete input where the fourth generated
signal (coordinated posts, confidence 1) is the most confident, the alert
message is *not* built from the evidence of the three highest-confidence
signals: `analyze` summarizes `signals[:3]` in generation order. -/
theorem message_not_top_three_evidence :
    analyze defaultDetector cexSocial cexMarket none = some cexAlert ∧
    cexAlert.message.summaries ≠
      ((sortDescBy (fun s => s.confidence) cexAlert.signals).take 3).map
        (fun s => s.evidence) := by
  refine ⟨cex_analyze, ?_⟩
  norm_num [cexAlert, cexSignals, sortDescBy, insertDescBy]
  decide

/-- **C7 (amended).** Every `PumpAlert` produced by `PumpDetector.analyze`
has its message built by concatenating the evidence strings of the *first
three signals in generation order* (`signals[:3]` — the fixed order social
spike, volume spike, price spike, new accounts, keyword pattern,
coordinated posts), not of the three highest-confidence signals. -/
theorem alert_message_is_first_three_signals (det : PumpDetector)
    (social : SocialMetrics) (market : MarketMetrics)
    (historical_social : Option ℚ) (alert : PumpAlert)
    (h : analyze det social market historical_social = some alert) :
    alert.message =
      generateMessage social.symbol alert.signals alert.severity ∧
    alert.message.summaries =
      (alert.signals.take 3).map (fun s => s.evidence) := by
  simp only [analyze] at h
  split at h
  · exact absurd h (by simp)
  · split at h
    · exact absurd h (by simp)
    · rw [Option.some.injEq] at h
      subst h
      exact ⟨rfl, rfl⟩

/-- Witness for the amended C7 at a concrete input producing an alert. -/
theorem alert_message_is_first_three_signals_witness :
    analyze defaultDetector cexSocial cexMarket none = some cexAlert ∧
    cexAlert.message =
      generateMessage cexSocial.symbol cexAlert.signals cexAlert.severity ∧
    cexAlert.message.summaries =
      (cexAlert.signals.take 3).map (fun s => s.evidence) :=
  ⟨cex_analyze,
   (alert_message_is_first_three_signals _ _ _ _ _ cex_analyze).1,
   (alert_message_is_first_three_signals _ _ _ _ _ cex_analyze).2⟩

/-! ## DTW pattern matcher (`patterns/dtw.py`): the distance -/

/-- Whether the inner loop of `DTWPatternMatcher.dtw_distance` visits
column `j` of row `i`:
`j_start = max(1, i - window) if window else 1`,
`j_end = min(m + 1, i + window + 1) if window else m + 1`, with `j`
ranging over `[j_start, j_end)` inside the row loop's `[1, m + 1)`.
Python's `if window` is false both for `None` and for the int `0`. -/
def inBand (window : Option ℤ) (m i j : ℕ) : Bool :=
  match window with
  | none => true
  | some w =>
      if w = 0 then true
      else
        decide (max 1 ((i : ℤ) - w) ≤ (j : ℤ)) &&
          decide ((j : ℤ) < min ((m : ℤ) + 1) ((i : ℤ) + w + 1))

/-- Row 0 of the `dtw` cost matrix: `dtw[0, 0] = 0`, `dtw[0, j] = inf`. -/
def dtwRow0 : ℕ → WithTop ℚ
  | 0 => 0
  | _ + 1 => ⊤

/-- Row `i ≥ 1` of the cost matrix given row `i - 1` (`prev`): column 0
keeps its `inf` initialization, a visited cell `(i, j)` is
`|seq1[i-1] - seq2[j-1]| + min(dtw[i-1,j], dtw[i,j-1], dtw[i-1,j-1])`, and
a cell outside the band keeps its `inf` initialization. -/
def dtwRowStep (seq1 seq2 : List ℚ) (window : Option ℤ)
    (prev : ℕ → WithTop ℚ) (i : ℕ) : ℕ → WithTop ℚ
  | 0 => ⊤
  | j + 1 =>
      if inBand window seq2.length i (j + 1) then
        ((|seq1.getD (i - 1) 0 - seq2.getD j 0| : ℚ) : WithTop ℚ) +
          min (prev (j + 1))
            (min (dtwRowStep seq1 seq2 window prev i j) (prev j))
      else ⊤

/-- The `dtw` cost matrix of `DTWPatternMatcher.dtw_distance`, filled row
by row exactly as the source's double loop fills it. -/
def dtwMatrix (seq1 seq2 : List ℚ) (window : Option ℤ) : ℕ → ℕ → WithTop ℚ
  | 0 => dtwRow0
  | i + 1 => dtwRowStep seq1 seq2 window (dtwMatrix seq1 seq2 window i) (i + 1)

/-- `DTWPatternMatcher.dtw_distance`: the value `float(dtw[n, m])`, kept in
`WithTop ℚ` since that float is `inf` when one sequence is empty and the
other is not. -/
def dtw_distance (seq1 seq2 : List ℚ) (window : Option ℤ) : WithTop ℚ :=
  dtwMatrix seq1 seq2 window seq1.length seq2.length

lemma dtwMatrix_succ_succ (seq1 seq2 : List ℚ) (window : Option ℤ) (i j : ℕ) :
    dtwMatrix seq1 seq2 window (i + 1) (j + 1) =
      if inBand window seq2.length (i + 1) (j + 1) then
        ((|seq1.getD i 0 - seq2.getD j 0| : ℚ) : WithTop ℚ) +
          min (dtwMatrix seq1 seq2 window i (j + 1))
            (min (dtwMatrix seq1 seq2 window (i + 1) j)
              (dtwMatrix seq1 seq2 window i j))
      else ⊤ := rfl

lemma dtwMatrix_nonneg (seq1 seq2 : List ℚ) (window : Option ℤ) :
    ∀ i j, 0 ≤ dtwMatrix seq1 seq2 window i j := by
  intro i
  induction i with
  | zero =>
    intro j
    cases j with
    | zero => exact le_refl _
    | succ j => exact le_top
  | succ i ih =>
    intro j
    induction j with
    | zero => exact le_top
    | succ j ihj =>
      rw [dtwMatrix_succ_succ]
      split
      · refine add_nonneg ?_ (le_min (ih _) (le_min ihj (ih _)))
        exact_mod_cast abs_nonneg _
      · exact le_top

lemma dtwMatrix_self_diag_le (s : List ℚ) :
    ∀ n, dtwMatrix s s none n n ≤ 0 := by
  intro n
  induction n with
  | zero => exact le_refl _
  | succ n ih =>
    rw [dtwMatrix_succ_succ]
    simp only [inBand, if_true]
    rw [sub_self, abs_zero, WithTop.coe_zero, zero_add]
    exact le_trans (le_trans (min_le_right _ _) (min_le_right _ _)) ih

lemma dtwMatrix_symm (seq1 seq2 : List ℚ) :
    ∀ i j, dtwMatrix seq1 seq2 none i j = dtwMatrix seq2 seq1 none j i := by
  intro i
  induction i with
  | zero =>
    intro j
    cases j with
    | zero => rfl
    | succ j => rfl
  | succ i ih =>
    intro j
    induction j with
    | zero => rfl
    | succ j ihj =>
      rw [dtwMatrix_succ_succ, dtwMatrix_succ_succ]
      simp only [inBand, if_true]
      rw [abs_sub_comm, ih (j + 1), ihj, ih j, min_left_comm]

/-- **C6.** Under the unconstrained (`window = None`) absolute-cost
formulation, the DTW distance of any sequence against itself is exactly 0,
and the DTW distance is symmetric in its two sequences. -/
theorem dtw_distance_self_zero_and_symm (a b s : List ℚ) :
    dtw_distance s s none = 0 ∧
    dtw_distance a b none = dtw_distance b a none := by
  refine ⟨le_antisymm (dtwMatrix_self_diag_le s s.length)
    (dtwMatrix_nonneg s s none _ _), ?_⟩
  unfold dtw_distance
  exact dtwMatrix_symm a b a.length b.length

lemma dtwMatrix_window_zero (seq1 seq2 : List ℚ) :
    ∀ i j, dtwMatrix seq1 seq2 (some 0) i j = dtwMatrix seq1 seq2 none i j := by
  intro i
  induction i with
  | zero =>
    intro j
    cases j with
    | zero => rfl
    | succ j => rfl
  | succ i ih =>
    intro j
    induction j with
    | zero => rfl
    | succ j ihj =>
      rw [dtwMatrix_succ_succ, dtwMatrix_succ_succ, ih (j + 1), ihj, ih j]
      simp only [inBand, if_pos]

/-- **C10.** A window constraint of 0 is treated as absent (`if window`
is false for the int 0): `dtw_distance` with `window = 0` coincides with
`dtw_distance` with `window = None`, with no band restriction, rather than
constraining the alignment path to the diagonal. -/
theorem dtw_distance_window_zero_eq_none (seq1 seq2 : List ℚ) :
    dtw_distance seq1 seq2 (some 0) = dtw_distance seq1 seq2 none := by
  unfold dtw_distance
  exact dtwMatrix_window_zero seq1 seq2 _ _

/-! ## DTW pattern matcher: the pattern library -/

/-- `PatternType` in `dtw.py`. -/
inductive PatternType where
  | HEAD_SHOULDERS
  | INVERSE_HEAD_SHOULDERS
  | DOUBLE_TOP
  | DOUBLE_BOTTOM
  | TRIPLE_TOP
  | TRIPLE_BOTTOM
  | CUP_HANDLE
  | ASCENDING_TRIANGLE
  | DESCENDING_TRIANGLE
  | WEDGE_UP
  | WEDGE_DOWN
  | FLAG_BULLISH
  | FLAG_BEARISH
  | ACCUMULATION
  | DISTRIBUTION
  | CUSTOM
  deriving DecidableEq

/-- `Pattern` in `dtw.py`. -/
structure Pattern where
  name : String
  pattern_type : PatternType
  template : List ℚ
  expected_outcome : String
  description : String
  deriving DecidableEq

/-- The `double_bottom` template array of `_load_common_patterns`. -/
def double_bottom : List ℚ :=
  [1.0, 0.9, 0.8, 0.7, 0.5, 0.3, 0.1, 0.0, 0.2, 0.4, 0.5, 0.4, 0.2, 0.0,
   0.1, 0.3, 0.5, 0.7, 0.9, 1.0]

/-- The `double_top` template array. -/
def double_top : List ℚ :=
  [0.0, 0.1, 0.2, 0.3, 0.5, 0.7, 0.9, 1.0, 0.8, 0.6, 0.5, 0.6, 0.8, 1.0,
   0.9, 0.7, 0.5, 0.3, 0.1, 0.0]

/-- The `head_shoulders` template array. -/
def head_shoulders : List ℚ :=
  [0.0, 0.2, 0.4, 0.6, 0.5, 0.3, 0.5, 0.7, 0.9, 1.0, 0.9, 0.7, 0.5, 0.3,
   0.5, 0.6, 0.4, 0.2, 0.0]

/-- `inv_head_shoulders = 1.0 - head_shoulders` (numpy broadcast). -/
def inv_head_shoulders : List ℚ := head_shoulders.map (fun x => 1 - x)

/-- The `cup_handle` template array. -/
def cup_handle : List ℚ :=
  [1.0, 0.9, 0.7, 0.5, 0.3, 0.1, 0.0, 0.1, 0.3, 0.5, 0.7, 0.9, 1.0, 0.95,
   0.9, 0.95, 1.0]

/-- The `ascending` template array. -/
def ascending : List ℚ :=
  [0.0, 0.2, 0.5, 0.4, 0.3, 0.6, 0.5, 0.4, 0.7, 0.6, 0.5, 0.8, 0.7, 0.6,
   0.9, 0.8, 0.7, 1.0]

/-- `descending = 1.0 - ascending` (numpy broadcast). -/
def descending : List ℚ := ascending.map (fun x => 1 - x)

/-- The `accumulation` template array. -/
def accumulation : List ℚ :=
  [0.5, 0.55, 0.45, 0.52, 0.48, 0.53, 0.47, 0.54, 0.46, 0.55, 0.45, 0.56,
   0.44, 0.57, 0.43, 0.58, 0.6, 0.7, 0.8]

/-- The Accumulation `Pattern` of `_load_common_patterns`. -/
def accumulationPattern : Pattern :=
  ⟨"Accumulation", .ACCUMULATION, accumulation, "bullish",
   "Range-bound trading followed by breakout"⟩

/-- The Double Bottom `Pattern` of `_load_common_patterns`. -/
def doubleBottomPattern : Pattern :=
  ⟨"Double Bottom", .DOUBLE_BOTTOM, double_bottom, "bullish",
   "W-shaped reversal pattern indicating potential uptrend"⟩

/-- The eight seed patterns `PatternLibrary._load_common_patterns` appends,
in order. -/
def seedPatterns : List Pattern :=
  [doubleBottomPattern,
   ⟨"Double Top", .DOUBLE_TOP, double_top, "bearish",
    "M-shaped reversal pattern indicating potential downtrend"⟩,
   ⟨"Head and Shoulders", .HEAD_SHOULDERS, head_shoulders, "bearish",
    "Three-peak pattern with higher middle peak"⟩,
   ⟨"Inverse Head and Shoulders", .INVERSE_HEAD_SHOULDERS, inv_head_shoulders,
    "bullish", "Three-trough pattern with lower middle trough"⟩,
   ⟨"Cup and Handle", .CUP_HANDLE, cup_handle, "bullish",
    "U-shaped pattern with small consolidation handle"⟩,
   ⟨"Ascending Triangle", .ASCENDING_TRIANGLE, ascending, "bullish",
    "Higher lows with flat resistance"⟩,
   ⟨"Descending Triangle", .DESCENDING_TRIANGLE, descending, "bearish",
    "Lower highs with flat support"⟩,
   accumulationPattern]

/-- `PatternLibrary.add_pattern` on the library's pattern list. -/
def add_pattern (patterns : List Pattern) (p : Pattern) : List Pattern :=
  patterns ++ [p]

/-- `np.min` of a nonempty 1-d array (the `[] => 0` case is junk and never
relied on: numpy raises on an empty array). -/
def listMin : List ℚ → ℚ
  | [] => 0
  | x :: xs => xs.foldl min x

/-- `np.max` of a nonempty 1-d array. -/
def listMax : List ℚ → ℚ
  | [] => 0
  | x :: xs => xs.foldl max x

/-- `DTWPatternMatcher.normalize_sequence`. -/
def normalize_sequence (seq : List ℚ) : List ℚ :=
  let min_val := listMin seq
  let max_val := listMax seq
  if max_val - min_val < 1/10000000000 then List.replicate seq.length 0
  else seq.map (fun x => (x - min_val) / (max_val - min_val))

/-- `DTWPatternMatcher.create_custom_pattern` (the `description or
f"Custom pattern: {name}"` default is modelled with string append). -/
def create_custom_pattern (name : String) (template_prices : List ℚ)
    (expected_outcome : String) (description : String) : Pattern :=
  ⟨name, .CUSTOM, normalize_sequence template_prices, expected_outcome,
   if description = "" then "Custom pattern: " ++ name else description⟩

lemma foldl_min_map (f : ℚ → ℚ) (hf : Monotone f) :
    ∀ (l : List ℚ) (a : ℚ), (l.map f).foldl min (f a) = f (l.foldl min a) := by
  intro l
  induction l with
  | nil => intro a; rfl
  | cons x xs ih =>
    intro a
    simp only [List.map_cons, List.foldl_cons]
    rw [← hf.map_min, ih]

lemma foldl_max_map (f : ℚ → ℚ) (hf : Monotone f) :
    ∀ (l : List ℚ) (a : ℚ), (l.map f).foldl max (f a) = f (l.foldl max a) := by
  intro l
  induction l with
  | nil => intro a; rfl
  | cons x xs ih =>
    intro a
    simp only [List.map_cons, List.foldl_cons]
    rw [← hf.map_max, ih]

lemma listMin_map (f : ℚ → ℚ) (hf : Monotone f) (x : ℚ) (xs : List ℚ) :
    listMin ((x :: xs).map f) = f (listMin (x :: xs)) := by
  simp only [listMin, List.map_cons]
  exact foldl_min_map f hf xs x

lemma listMax_map (f : ℚ → ℚ) (hf : Monotone f) (x : ℚ) (xs : List ℚ) :
    listMax ((x :: xs).map f) = f (listMax (x :: xs)) := by
  simp only [listMax, List.map_cons]
  exact foldl_max_map f hf xs x

lemma normalize_sequence_range (x : ℚ) (xs : List ℚ)
    (h : 1/10000000000 ≤ listMax (x :: xs) - listMin (x :: xs)) :
    listMin (normalize_sequence (x :: xs)) = 0 ∧
    listMax (normalize_sequence (x :: xs)) = 1 := by
  set mn := listMin (x :: xs) with hmn
  set mx := listMax (x :: xs) with hmx
  have hd : (0:ℚ) < mx - mn := lt_of_lt_of_le (by norm_num) h
  have hnorm : normalize_sequence (x :: xs) =
      (x :: xs).map (fun v => (v - mn) / (mx - mn)) := by
    unfold normalize_sequence
    rw [← hmn, ← hmx, if_neg (not_lt.mpr h)]
  have hmono : Monotone (fun v : ℚ => (v - mn) / (mx - mn)) := by
    intro a b hab
    have hsub : a - mn ≤ b - mn := by linarith
    exact div_le_div_of_nonneg_right hsub (le_of_lt hd)
  constructor
  · rw [hnorm, listMin_map _ hmono, ← hmn, sub_self, zero_div]
  · rw [hnorm, listMax_map _ hmono, ← hmx, div_self (ne_of_gt hd)]

/-- **C2 counterexample.** The Accumulation pattern — the eighth pattern of
the fixed seed set loaded at `PatternLibrary` construction — has a
non-constant template with `min = 0.43` and `max = 0.8`, so the claimed
invariant `min(template) = 0 ∧ max(template) = 1` fails on the library's
own seed set. -/
theorem accumulation_template_not_normalized :
    accumulationPattern ∈ seedPatterns ∧
    listMin accumulationPattern.template = 0.43 ∧
    listMax accumulationPattern.template = 0.8 ∧
    listMin accumulationPattern.template ≠ listMax accumulationPattern.template ∧
    ¬ (listMin accumulationPattern.template = 0 ∧
       listMax accumulationPattern.template = 1) := by
  refine ⟨by simp [seedPatterns], ?_, ?_, ?_, ?_⟩
  · norm_num [accumulationPattern, accumulation, listMin, min_def]
  · norm_num [accumulationPattern, accumulation, listMax, max_def]
  · norm_num [accumulationPattern, accumulation, listMin, listMax, min_def, max_def]
  · rintro ⟨h0, -⟩
    rw [show listMin accumulationPattern.template = 0.43 by
      norm_num [accumulationPattern, accumulation, listMin, min_def]] at h0
    norm_num at h0

/-- **C2 (amended).** Every seed pattern of the `PatternLibrary` *except
Accumulation* has a template with `min = 0` and `max = 1`; the
Accumulation seed template instead has `min = 0.43` and `max = 0.8`.
Every pattern registered after `create_custom_pattern` has the normalized
template of its input prices, and for a nonempty input that normalization
has `min = 0` and `max = 1` when the input's range is at least the
`1e-10` epsilon, and is all zeros (in particular for every constant
input) when the range is below the epsilon. -/
theorem pattern_library_template_range :
    (∀ p ∈ seedPatterns, p.pattern_type ≠ PatternType.ACCUMULATION →
      listMin p.template = 0 ∧ listMax p.template = 1) ∧
    (listMin accumulationPattern.template = 43/100 ∧
     listMax accumulationPattern.template = 4/5) ∧
    (∀ (name : String) (template_prices : List ℚ) (outcome descr : String),
      (create_custom_pattern name template_prices outcome descr).template =
        normalize_sequence template_prices) ∧
    (∀ (x : ℚ) (xs : List ℚ),
      (listMax (x :: xs) - listMin (x :: xs) < 1/10000000000 →
        normalize_sequence (x :: xs) = List.replicate (x :: xs).length 0) ∧
      (1/10000000000 ≤ listMax (x :: xs) - listMin (x :: xs) →
        listMin (normalize_sequence (x :: xs)) = 0 ∧
        listMax (normalize_sequence (x :: xs)) = 1)) := by
  refine ⟨?_, ?_, ?_, ?_⟩
  · intro p hp hne
    simp only [seedPatterns, List.mem_cons, List.not_mem_nil, or_false] at hp
    rcases hp with rfl | rfl | rfl | rfl | rfl | rfl | rfl | rfl
    · constructor
      · norm_num [doubleBottomPattern, double_bottom, listMin, min_def]
      · norm_num [doubleBottomPattern, double_bottom, listMax, max_def]
    · constructor
      · norm_num [double_top, listMin, min_def]
      · norm_num [double_top, listMax, max_def]
    · constructor
      · norm_num [head_shoulders, listMin, min_def]
      · norm_num [head_shoulders, listMax, max_def]
    · constructor
      · norm_num [inv_head_shoulders, head_shoulders, listMin, min_def]
      · norm_num [inv_head_shoulders, head_shoulders, listMax, max_def]
    · constructor
      · norm_num [cup_handle, listMin, min_def]
      · norm_num [cup_handle, listMax, max_def]
    · constructor
      · norm_num [ascending, listMin, min_def]
      · norm_num [ascending, listMax, max_def]
    · constructor
      · norm_num [descending, ascending, listMin, min_def]
      · norm_num [descending, ascending, listMax, max_def]
    · exact absurd rfl hne
  · constructor
    · norm_num [accumulationPattern, accumulation, listMin, min_def]
    · norm_num [accumulationPattern, accumulation, listMax, max_def]
  · intro name template_prices outcome descr
    rfl
  · intro x xs
    constructor
    · intro h
      unfold normalize_sequence
      rw [if_pos h]
    · exact normalize_sequence_range x xs

/-- Witness for the amended C2: the Double Bottom seed pattern, a custom
pattern over `[1, 3]` (range 2 ≥ ε, normalized to `[0, 1]`), and a custom
pattern over the constant `[5, 5]` (range 0 < ε, normalized to zeros). -/
theorem pattern_library_template_range_witness :
    (doubleBottomPattern ∈ seedPatterns ∧
     doubleBottomPattern.pattern_type ≠ PatternType.ACCUMULATION ∧
     listMin doubleBottomPattern.template = 0 ∧
     listMax doubleBottomPattern.template = 1) ∧
    (create_custom_pattern "w" [1, 3] "neutral" "").template =
      normalize_sequence [1, 3] ∧
    ((1:ℚ)/10000000000 ≤ listMax [(1:ℚ), 3] - listMin [(1:ℚ), 3] ∧
     listMin (normalize_sequence [(1:ℚ), 3]) = 0 ∧
     listMax (normalize_sequence [(1:ℚ), 3]) = 1) ∧
    (listMax [(5:ℚ), 5] - listMin [(5:ℚ), 5] < 1/10000000000 ∧
     normalize_sequence [(5:ℚ), 5] = List.replicate 2 0) := by
  have hrange : (1:ℚ)/10000000000 ≤ listMax [(1:ℚ), 3] - listMin [(1:ℚ), 3] := by
    norm_num [listMin, listMax, min_def, max_def]
  have hconst : listMax [(5:ℚ), 5] - listMin [(5:ℚ), 5] < 1/10000000000 := by
    norm_num [listMin, listMax, min_def, max_def]
  refine ⟨⟨by simp [seedPatterns], by simp [doubleBottomPattern], ?_⟩, ?_, ⟨hrange, ?_⟩, hconst, ?_⟩
  · exact pattern_library_template_range.1 doubleBottomPattern
      (by simp [seedPatterns]) (by simp [doubleBottomPattern])
  · exact pattern_library_template_range.2.2.1 "w" [1, 3] "neutral" ""
  · exact ((pattern_library_template_range.2.2.2 1 [3]).2) hrange
  · exact ((pattern_library_template_range.2.2.2 5 [5]).1) hconst

/-! ## DTW pattern matcher: match deduplication -/

/-- `PatternMatch` in `dtw.py`. -/
structure PatternMatch where
  pattern_type : PatternType
  similarity : ℚ
  start_idx : ℤ
  end_idx : ℤ
  dtw_distance : ℚ
  description : String
  expected_outcome : String
  deriving DecidableEq

/-- The body of the `for start, end in used_ranges` check inside
`_deduplicate_matches`: `False` when the ranges are disjoint
(`match.end_idx <= start or match.start_idx >= end`, checked before any
division), else whether
`(min(match.end_idx, end) - max(match.start_idx, start)) / (match.end_idx - match.start_idx) > 0.5`. -/
def overlapsRange (m : PatternMatch) (r : ℤ × ℤ) : Bool :=
  if m.end_idx ≤ r.1 ∨ m.start_idx ≥ r.2 then false
  else
    decide ((((min m.end_idx r.2 - max m.start_idx r.1 : ℤ) : ℚ) /
      ((m.end_idx - m.start_idx : ℤ) : ℚ)) > 1/2)

/-- One iteration of `_deduplicate_matches`'s loop, carrying the pair
`(deduplicated, used_ranges)` exactly as the source does. -/
def dedupStep (acc : List PatternMatch × List (ℤ × ℤ)) (m : PatternMatch) :
    List PatternMatch × List (ℤ × ℤ) :=
  if acc.2.any (fun r => overlapsRange m r) then acc
  else (acc.1 ++ [m], acc.2 ++ [(m.start_idx, m.end_idx)])

/-- `DTWPatternMatcher._deduplicate_matches`: sort by similarity
descending (Python's stable `sorted`, modelled by `sortDescBy`), then the
greedy loop. -/
def deduplicate_matches (ms : List PatternMatch) : List PatternMatch :=
  if ms.isEmpty then []
  else ((sortDescBy (fun m => m.similarity) ms).foldl dedupStep ([], [])).1

/-- From the spec's words: the amount by which two index ranges overlap
(0 when they are disjoint). -/
def overlapAmount (r1 r2 : ℤ × ℤ) : ℤ := max 0 (min r1.2 r2.2 - max r1.1 r2.1)

/-- From the spec's words: accept a candidate iff its index range overlaps
no already-accepted range by more than 50% of its own span. -/
def specAccepts (used : List (ℤ × ℤ)) (m : PatternMatch) : Bool :=
  used.all fun r =>
    decide (((overlapAmount (m.start_idx, m.end_idx) r : ℤ) : ℚ) ≤
      ((m.end_idx - m.start_idx : ℤ) : ℚ) / 2)

/-- From the spec's words: walk the similarity-sorted candidates, greedily
accepting. -/
def dedupSpecGo : List PatternMatch → List (ℤ × ℤ) → List PatternMatch
  | [], _ => []
  | m :: rest, used =>
      if specAccepts used m then
        m :: dedupSpecGo rest (used ++ [(m.start_idx, m.end_idx)])
      else dedupSpecGo rest used

/-- From the spec's words: sort all candidates by similarity descending,
then greedily accept. -/
def dedupSpec (ms : List PatternMatch) : List PatternMatch :=
  dedupSpecGo (sortDescBy (fun m => m.similarity) ms) []

lemma mem_insertDescBy {α : Type} (key : α → ℚ) (x a : α) :
    ∀ l : List α, a ∈ insertDescBy key x l ↔ a = x ∨ a ∈ l := by
  intro l
  induction l with
  | nil => simp [insertDescBy]
  | cons y ys ih =>
    simp only [insertDescBy]
    split
    · simp [List.mem_cons]
    · simp only [List.mem_cons, ih]
      tauto

lemma mem_sortDescBy {α : Type} (key : α → ℚ) (a : α) :
    ∀ l : List α, a ∈ sortDescBy key l ↔ a ∈ l := by
  intro l
  induction l with
  | nil => simp [sortDescBy]
  | cons x xs ih =>
    simp only [sortDescBy, mem_insertDescBy, ih, List.mem_cons]

lemma overlapAmount_comm (r1 r2 : ℤ × ℤ) :
    overlapAmount r1 r2 = overlapAmount r2 r1 := by
  unfold overlapAmount
  rw [min_comm, max_comm r1.1 r2.1]

lemma overlapsRange_true_iff (m : PatternMatch) (r : ℤ × ℤ)
    (hm : 0 < m.end_idx - m.start_idx) (hr : 0 < r.2 - r.1) :
    overlapsRange m r = true ↔
      ((m.end_idx - m.start_idx : ℤ) : ℚ) / 2 <
        ((overlapAmount (m.start_idx, m.end_idx) r : ℤ) : ℚ) := by
  have hspanQ : (0:ℚ) < ((m.end_idx - m.start_idx : ℤ) : ℚ) := by
    exact_mod_cast hm
  unfold overlapsRange overlapAmount
  by_cases hdisj : m.end_idx ≤ r.1 ∨ m.start_idx ≥ r.2
  · rw [if_pos hdisj]
    have hle : min m.end_idx r.2 - max m.start_idx r.1 ≤ 0 := by
      rcases hdisj with h | h <;> omega
    rw [max_eq_left hle]
    simp only [Int.cast_zero]
    constructor
    · intro h
      exact absurd h (by simp)
    · intro h
      exact absurd h (not_lt.mpr (by positivity))
  · rw [if_neg hdisj]
    push_neg at hdisj
    obtain ⟨h1, h2⟩ := hdisj
    have hpos : 0 < min m.end_idx r.2 - max m.start_idx r.1 := by omega
    rw [max_eq_right (le_of_lt hpos)]
    rw [decide_eq_true_iff, gt_iff_lt, lt_div_iff₀ hspanQ]
    constructor <;> intro hx <;> linarith

lemma overlapsRange_false_of_disjoint (m : PatternMatch) (r : ℤ × ℤ)
    (h : m.end_idx ≤ r.1 ∨ m.start_idx ≥ r.2) : overlapsRange m r = false := by
  unfold overlapsRange
  rw [if_pos h]

lemma any_overlaps_eq_not_specAccepts (m : PatternMatch) (used : List (ℤ × ℤ))
    (hm : 0 < m.end_idx - m.start_idx) (hu : ∀ r ∈ used, 0 < r.2 - r.1) :
    (used.any fun r => overlapsRange m r) = !specAccepts used m := by
  induction used with
  | nil => rfl
  | cons r rs ih =>
    have hr := hu r (by simp)
    have hpoint : overlapsRange m r =
        !decide (((overlapAmount (m.start_idx, m.end_idx) r : ℤ) : ℚ) ≤
          ((m.end_idx - m.start_idx : ℤ) : ℚ) / 2) := by
      by_cases hc : ((overlapAmount (m.start_idx, m.end_idx) r : ℤ) : ℚ) ≤
          ((m.end_idx - m.start_idx : ℤ) : ℚ) / 2
      · rw [decide_eq_true hc, Bool.not_true]
        rw [Bool.eq_false_iff]
        intro htrue
        exact absurd ((overlapsRange_true_iff m r hm hr).mp htrue) (not_lt.mpr hc)
      · rw [decide_eq_false hc, Bool.not_false]
        exact (overlapsRange_true_iff m r hm hr).mpr (not_le.mp hc)
    have ih' := ih (fun x hx => hu x (List.mem_cons_of_mem r hx))
    simp only [List.any_cons, specAccepts, List.all_cons, Bool.not_and] at ih' ⊢
    rw [hpoint, ih']

lemma dedup_foldl_eq_specGo :
    ∀ (l : List PatternMatch) (acc : List PatternMatch) (used : List (ℤ × ℤ)),
      (∀ m ∈ l, 0 < m.end_idx - m.start_idx) →
      (∀ r ∈ used, 0 < r.2 - r.1) →
      (l.foldl dedupStep (acc, used)).1 = acc ++ dedupSpecGo l used := by
  intro l
  induction l with
  | nil =>
    intro acc used _ _
    simp [dedupSpecGo]
  | cons m rest ih =>
    intro acc used hl hu
    have hm := hl m (by simp)
    have hrest : ∀ x ∈ rest, 0 < x.end_idx - x.start_idx :=
      fun x hx => hl x (List.mem_cons_of_mem m hx)
    have hstep : dedupStep (acc, used) m =
        if specAccepts used m then
          (acc ++ [m], used ++ [(m.start_idx, m.end_idx)])
        else (acc, used) := by
      unfold dedupStep
      rw [show (acc, used).2 = used from rfl, show (acc, used).1 = acc from rfl,
        any_overlaps_eq_not_specAccepts m used hm hu]
      by_cases hs : specAccepts used m
      · simp [hs]
      · simp [Bool.eq_false_iff.mpr hs]
    rw [List.foldl_cons, hstep]
    by_cases hs : specAccepts used m
    · rw [if_pos hs]
      have hu' : ∀ r ∈ used ++ [(m.start_idx, m.end_idx)], 0 < r.2 - r.1 := by
        intro r hrr
        rcases List.mem_append.mp hrr with h | h
        · exact hu r h
        · rw [List.mem_singleton] at h
          subst h
          exact hm
      rw [ih (acc ++ [m]) (used ++ [(m.start_idx, m.end_idx)]) hrest hu']
      rw [dedupSpecGo, if_pos hs, List.append_assoc]
      rfl
    · rw [if_neg hs]
      rw [ih acc used hrest hu]
      rw [dedupSpecGo, if_neg hs]

/-- **C3.** `_deduplicate_matches` (a) sorts the candidates by similarity
descending and greedily accepts a match iff its index range overlaps no
already-accepted range by more than 50% of the candidate's own span
(refinement against the spec-worded `dedupSpec`, for candidates with
positive spans); hence (b) of two matches overlapping by more than 50% of
each of their spans only the higher-similarity one is returned, in either
input order, and (c) two non-overlapping matches are both returned. -/
theorem deduplicate_matches_correct :
    (∀ ms : List PatternMatch,
      (∀ m ∈ ms, 0 < m.end_idx - m.start_idx) →
      deduplicate_matches ms = dedupSpec ms) ∧
    (∀ m1 m2 : PatternMatch,
      0 < m1.end_idx - m1.start_idx → 0 < m2.end_idx - m2.start_idx →
      m2.similarity < m1.similarity →
      ((m1.end_idx - m1.start_idx : ℤ) : ℚ) / 2 <
        ((overlapAmount (m1.start_idx, m1.end_idx)
          (m2.start_idx, m2.end_idx) : ℤ) : ℚ) →
      ((m2.end_idx - m2.start_idx : ℤ) : ℚ) / 2 <
        ((overlapAmount (m1.start_idx, m1.end_idx)
          (m2.start_idx, m2.end_idx) : ℤ) : ℚ) →
      deduplicate_matches [m1, m2] = [m1] ∧
      deduplicate_matches [m2, m1] = [m1]) ∧
    (∀ m1 m2 : PatternMatch,
      (m1.end_idx ≤ m2.start_idx ∨ m2.end_idx ≤ m1.start_idx) →
      m1 ∈ deduplicate_matches [m1, m2] ∧
      m2 ∈ deduplicate_matches [m1, m2]) := by
  refine ⟨?_, ?_, ?_⟩
  · intro ms hspan
    unfold deduplicate_matches dedupSpec
    cases ms with
    | nil => rfl
    | cons x xs =>
      rw [if_neg (by simp)]
      exact dedup_foldl_eq_specGo _ [] []
        (fun m hmem => hspan m ((mem_sortDescBy _ m _).mp hmem))
        (fun r hr => absurd hr (List.not_mem_nil r))
  · intro m1 m2 hm1 hm2 hlt hov1 hov2
    have hs12 : sortDescBy (fun m => m.similarity) [m1, m2] = [m1, m2] := by
      simp [sortDescBy, insertDescBy, le_of_lt hlt]
    have hs21 : sortDescBy (fun m => m.similarity) [m2, m1] = [m1, m2] := by
      simp [sortDescBy, insertDescBy, not_le.mpr hlt]
    have hover : overlapsRange m2 (m1.start_idx, m1.end_idx) = true := by
      rw [overlapsRange_true_iff m2 _ hm2 (by simpa using hm1)]
      rw [show ((m1.start_idx, m1.end_idx) : ℤ × ℤ) =
        (m1.start_idx, m1.end_idx) from rfl]
      rw [overlapAmount_comm]
      exact hov2
    have hfold : ([m1, m2].foldl dedupStep ([], [])).1 = [m1] := by
      simp [dedupStep, hover]
    constructor
    · unfold deduplicate_matches
      rw [if_neg (by simp), hs12, hfold]
    · unfold deduplicate_matches
      rw [if_neg (by simp), hs21, hfold]
  · intro m1 m2 hdisj
    have hd21 : overlapsRange m2 (m1.start_idx, m1.end_idx) = false := by
      apply overlapsRange_false_of_disjoint
      simpa using hdisj.symm
    have hd12 : overlapsRange m1 (m2.start_idx, m2.end_idx) = false := by
      apply overlapsRange_false_of_disjoint
      simpa using hdisj
    unfold deduplicate_matches
    rw [if_neg (by simp)]
    by_cases hge : m1.similarity ≥ m2.similarity
    · have hs : sortDescBy (fun m => m.similarity) [m1, m2] = [m1, m2] := by
        simp [sortDescBy, insertDescBy, hge]
      rw [hs]
      have : ([m1, m2].foldl dedupStep ([], [])).1 = [m1, m2] := by
        simp [dedupStep, hd21]
      rw [this]
      exact ⟨by simp, by simp⟩
    · have hs : sortDescBy (fun m => m.similarity) [m1, m2] = [m2, m1] := by
        simp [sortDescBy, insertDescBy, hge]
      rw [hs]
      have : ([m2, m1].foldl dedupStep ([], [])).1 = [m2, m1] := by
        simp [dedupStep, hd12]
      rw [this]
      exact ⟨by simp, by simp⟩

/-- Concrete match for the C3 witness: similarity 0.9 on range [0, 10). -/
def pmA : PatternMatch := ⟨.DOUBLE_BOTTOM, 9/10, 0, 10, 1, "wa", "bullish"⟩

/-- Concrete match for the C3 witness: similarity 0.8 on range [2, 12)
(mutual overlap 8 > 5 = half of either span). -/
def pmB : PatternMatch := ⟨.DOUBLE_TOP, 4/5, 2, 12, 1, "wb", "bearish"⟩

/-- Concrete match for the C3 witness: similarity 0.6 on range [10, 20)
(disjoint from `pmA`). -/
def pmC : PatternMatch := ⟨.CUP_HANDLE, 3/5, 10, 20, 1, "wc", "bullish"⟩

/-- Witness for C3 at concrete matches. -/
theorem deduplicate_matches_correct_witness :
    ((∀ m ∈ [pmA], 0 < m.end_idx - m.start_idx) ∧
      deduplicate_matches [pmA] = dedupSpec [pmA]) ∧
    (0 < pmA.end_idx - pmA.start_idx ∧ 0 < pmB.end_idx - pmB.start_idx ∧
      pmB.similarity < pmA.similarity ∧
      ((pmA.end_idx - pmA.start_idx : ℤ) : ℚ) / 2 <
        ((overlapAmount (pmA.start_idx, pmA.end_idx)
          (pmB.start_idx, pmB.end_idx) : ℤ) : ℚ) ∧
      ((pmB.end_idx - pmB.start_idx : ℤ) : ℚ) / 2 <
        ((overlapAmount (pmA.start_idx, pmA.end_idx)
          (pmB.start_idx, pmB.end_idx) : ℤ) : ℚ) ∧
      (deduplicate_matches [pmA, pmB] = [pmA] ∧
       deduplicate_matches [pmB, pmA] = [pmA])) ∧
    ((pmA.end_idx ≤ pmC.start_idx ∨ pmC.end_idx ≤ pmA.start_idx) ∧
      (pmA ∈ deduplicate_matches [pmA, pmC] ∧
       pmC ∈ deduplicate_matches [pmA, pmC])) := by
  have h1 : ∀ m ∈ [pmA], 0 < m.end_idx - m.start_idx := by
    intro m hm
    rw [List.mem_singleton] at hm
    subst hm
    norm_num [pmA]
  have hb1 : (0:ℤ) < pmA.end_idx - pmA.start_idx := by norm_num [pmA]
  have hb2 : (0:ℤ) < pmB.end_idx - pmB.start_idx := by norm_num [pmB]
  have hsim : pmB.similarity < pmA.similarity := by norm_num [pmA, pmB]
  have hov1 : ((pmA.end_idx - pmA.start_idx : ℤ) : ℚ) / 2 <
      ((overlapAmount (pmA.start_idx, pmA.end_idx)
        (pmB.start_idx, pmB.end_idx) : ℤ) : ℚ) := by
    norm_num [pmA, pmB, overlapAmount, min_def, max_def]
  have hov2 : ((pmB.end_idx - pmB.start_idx : ℤ) : ℚ) / 2 <
      ((overlapAmount (pmA.start_idx, pmA.end_idx)
        (pmB.start_idx, pmB.end_idx) : ℤ) : ℚ) := by
    norm_num [pmA, pmB, overlapAmount, min_def, max_def]
  have hdisj : pmA.end_idx ≤ pmC.start_idx ∨ pmC.end_idx ≤ pmA.start_idx := by
    left
    norm_num [pmA, pmC]
  exact ⟨⟨h1, deduplicate_matches_correct.1 [pmA] h1⟩,
    ⟨hb1, hb2, hsim, hov1, hov2,
      deduplicate_matches_correct.2.1 pmA pmB hb1 hb2 hsim hov1 hov2⟩,
    ⟨hdisj, deduplicate_matches_correct.2.2 pmA pmC hdisj⟩⟩

/-! ## Anomaly detector (`models/anomaly.py`) -/

/-- `AnomalyType` in `anomaly.py`. -/
inductive AnomalyType where
  | price_spike
  | volume_spike
  | volatility_explosion
  | gap_anomaly
  | correlation_break
  | pattern_deviation
  deriving DecidableEq

/-- The `description` f-strings of `anomaly.py`, one constructor per
template, carrying interpolated values instead of formatted text
(`gapMoved` carries the direction `gaps[i] > 0` and `|gaps[i]|`). -/
inductive AnomalyText where
  | priceMoved (z : ℚ)
  | volumeTimes (mult : ℚ)
  | volatilityTimes (mult : ℚ)
  | gapMoved (up : Bool) (mag : ℚ)
  deriving DecidableEq

/-- `Anomaly` (timestamp omitted, see module docstring). -/
structure Anomaly where
  anomaly_type : AnomalyType
  symbol : String
  severity : ℚ
  z_score : ℚ
  description : AnomalyText
  value : ℚ
  expected_range : ℚ × ℚ
  deriving DecidableEq

/-- `AnomalyConfig`. -/
structure AnomalyConfig where
  price_z_threshold : ℚ
  volume_z_threshold : ℚ
  volatility_z_threshold : ℚ
  gap_z_threshold : ℚ
  lookback_period : ℕ
  min_severity : ℚ
  deriving DecidableEq

/-- `AnomalyConfig()` with all default values. -/
def defaultAnomalyConfig : AnomalyConfig := ⟨3, 4, 7/2, 3, 60, 1/2⟩

/-- An `AnomalyConfig` with `lookback_period = 1`, used by concrete
witnesses to keep evaluations small. -/
def cfgL1 : AnomalyConfig := ⟨3, 4, 7/2, 3, 1, 1/2⟩

/-- `np.mean` of a 1-d array. -/
def npMean (l : List ℚ) : ℚ := l.sum / l.length

/-- The variance whose square root is `np.std` (see the module docstring
for how the square root itself is handled). -/
def npVar (l : List ℚ) : ℚ := (l.map (fun x => (x - npMean l)^2)).sum / l.length

/-- numpy 1-d broadcasting for a binary elementwise operation: defined for
equal lengths or a length-1 operand, a broadcast `ValueError` otherwise. -/
def zipB (f : ℚ → ℚ → ℚ) (a b : List ℚ) : Except String (List ℚ) :=
  if a.length = b.length then Except.ok (List.zipWith f a b)
  else if a.length = 1 then Except.ok (b.map (fun y => f (a.headD 0) y))
  else if b.length = 1 then Except.ok (a.map (fun x => f x (b.headD 0)))
  else Except.error "operands could not be broadcast together"

/-- The body of `detect_price_anomalies`' loop at index `i` of the returns
series: `none` models the `continue` on a near-constant window and the
non-flagged case. -/
def priceAnomalyAt (sq : ℚ → ℚ) (cfg : AnomalyConfig) (symbol : String)
    (returns : List ℚ) (i : ℕ) : Option Anomaly :=
  let lookback := (returns.drop (i - cfg.lookback_period)).take cfg.lookback_period
  let mean_ret := npMean lookback
  let std_ret := sq (npVar lookback)
  if std_ret < 1/10000000000 then none
  else
    let z_score := (returns.getD i 0 - mean_ret) / std_ret
    if |z_score| ≥ cfg.price_z_threshold then
      some ⟨.price_spike, symbol, min (|z_score| / 5) 1, z_score,
        .priceMoved z_score, returns.getD i 0,
        (mean_ret - 2 * std_ret, mean_ret + 2 * std_ret)⟩
    else none

/-- `AnomalyDetector.detect_price_anomalies`.  `returns = np.diff(prices)
/ prices[:-1]` always has matching operand lengths, so it is modelled with
plain `zipWith`; no other operation in this detector can raise. -/
def detect_price_anomalies (sq : ℚ → ℚ) (cfg : AnomalyConfig) (symbol : String)
    (prices : List ℚ) : List Anomaly :=
  if prices.length < cfg.lookback_period + 1 then []
  else
    let returns := List.zipWith (fun d p => d / p)
      (List.zipWith (fun a b => a - b) (prices.drop 1) prices.dropLast)
      prices.dropLast
    ((List.range returns.length).drop cfg.lookback_period).filterMap
      (priceAnomalyAt sq cfg symbol returns)

/-- The body of `detect_volume_anomalies`' loop at index `i`. -/
def volumeAnomalyAt (sq : ℚ → ℚ) (cfg : AnomalyConfig) (symbol : String)
    (volumes : List ℚ) (i : ℕ) : Option Anomaly :=
  let lookback := (volumes.drop (i - cfg.lookback_period)).take cfg.lookback_period
  let mean_vol := npMean lookback
  let std_vol := sq (npVar lookback)
  if std_vol < 1/10000000000 ∨ mean_vol < 1/10000000000 then none
  else
    let z_score := (volumes.getD i 0 - mean_vol) / std_vol
    if z_score ≥ cfg.volume_z_threshold then
      some ⟨.volume_spike, symbol, min (z_score / 8) 1, z_score,
        .volumeTimes (volumes.getD i 0 / mean_vol), volumes.getD i 0,
        (mean_vol - 2 * std_vol, mean_vol + 2 * std_vol)⟩
    else none

/-- `AnomalyDetector.detect_volume_anomalies` (single input array: no
elementwise operation between distinct arrays, nothing can raise). -/
def detect_volume_anomalies (sq : ℚ → ℚ) (cfg : AnomalyConfig) (symbol : String)
    (volumes : List ℚ) : List Anomaly :=
  if volumes.length < cfg.lookback_period + 1 then []
  else
    ((List.range volumes.length).drop cfg.lookback_period).filterMap
      (volumeAnomalyAt sq cfg symbol volumes)

/-- The body of `detect_volatility_anomalies`' loop at index `i` of the
true-range series. -/
def trAnomalyAt (sq : ℚ → ℚ) (cfg : AnomalyConfig) (symbol : String)
    (tr : List ℚ) (i : ℕ) : Option Anomaly :=
  let lookback := (tr.drop (i - cfg.lookback_period)).take cfg.lookback_period
  let mean_tr := npMean lookback
  let std_tr := sq (npVar lookback)
  if std_tr < 1/10000000000 then none
  else
    let z_score := (tr.getD i 0 - mean_tr) / std_tr
    if z_score ≥ cfg.volatility_z_threshold then
      some ⟨.volatility_explosion, symbol, min (z_score / 6) 1, z_score,
        .volatilityTimes (tr.getD i 0 / mean_tr), tr.getD i 0,
        (mean_tr - 2 * std_tr, mean_tr + 2 * std_tr)⟩
    else none

/-- `AnomalyDetector.detect_volatility_anomalies`:
`tr = np.maximum(highs[1:] - lows[1:], np.maximum(np.abs(highs[1:] -
closes[:-1]), np.abs(lows[1:] - closes[:-1])))`, each binary elementwise
operation broadcast via `zipB` (and so raising where numpy raises). -/
def detect_volatility_anomalies (sq : ℚ → ℚ) (cfg : AnomalyConfig)
    (symbol : String) (highs lows closes : List ℚ) :
    Except String (List Anomaly) :=
  if highs.length < cfg.lookback_period + 1 then Except.ok []
  else
    (zipB (fun a b => a - b) (highs.drop 1) (lows.drop 1)).bind fun d1 =>
    (zipB (fun a b => a - b) (highs.drop 1) closes.dropLast).bind fun d2 =>
    (zipB (fun a b => a - b) (lows.drop 1) closes.dropLast).bind fun d3 =>
    (zipB (fun a b => max a b) (d2.map (fun x => |x|))
        (d3.map (fun x => |x|))).bind fun inner =>
    (zipB (fun a b => max a b) d1 inner).bind fun tr =>
    Except.ok (((List.range tr.length).drop cfg.lookback_period).filterMap
      (trAnomalyAt sq cfg symbol tr))

/-- The body of `detect_gap_anomalies`' loop at index `i` of the gap
series. -/
def gapAnomalyAt (sq : ℚ → ℚ) (cfg : AnomalyConfig) (symbol : String)
    (gaps : List ℚ) (i : ℕ) : Option Anomaly :=
  let lookback := (gaps.drop (i - cfg.lookback_period)).take cfg.lookback_period
  let mean_gap := npMean lookback
  let std_gap := sq (npVar lookback)
  if std_gap < 1/10000000000 then none
  else
    let z_score := (gaps.getD i 0 - mean_gap) / std_gap
    if |z_score| ≥ cfg.gap_z_threshold then
      some ⟨.gap_anomaly, symbol, min (|z_score| / 5) 1, z_score,
        .gapMoved (decide (gaps.getD i 0 > 0)) |gaps.getD i 0|, gaps.getD i 0,
        (mean_gap - 2 * std_gap, mean_gap + 2 * std_gap)⟩
    else none

/-- `AnomalyDetector.detect_gap_anomalies`:
`gaps = (opens[1:] - closes[:-1]) / closes[:-1]`, each binary elementwise
operation broadcast via `zipB`; note the length guard tests
`len(opens) < lookback_period + 2`. -/
def detect_gap_anomalies (sq : ℚ → ℚ) (cfg : AnomalyConfig) (symbol : String)
    (opens closes : List ℚ) : Except String (List Anomaly) :=
  if opens.length < cfg.lookback_period + 2 then Except.ok []
  else
    (zipB (fun a b => a - b) (opens.drop 1) closes.dropLast).bind fun num =>
    (zipB (fun a b => a / b) num closes.dropLast).bind fun gaps =>
    Except.ok (((List.range gaps.length).drop cfg.lookback_period).filterMap
      (gapAnomalyAt sq cfg symbol gaps))

lemma zipB_ok (f : ℚ → ℚ → ℚ) (a b : List ℚ) (h : a.length = b.length) :
    zipB f a b = Except.ok (List.zipWith f a b) := by
  unfold zipB
  rw [if_pos h]

lemma except_bind_ok {ε α β : Type} (x : α) (f : α → Except ε β) :
    (Except.ok x : Except ε α).bind f = f x := rfl

/-- **C4 counterexample.** With `lookback_period = 1`, 4 opens and 7
closes, the gap detector passes its length guard (`4 < 3` is false) but
`opens[1:] - closes[:-1]` has operand lengths 3 and 6: numpy raises a
broadcast `ValueError`, so the detector does *not* return a list for
every input. -/
theorem gap_detector_raises_on_mismatched_lengths :
    detect_gap_anomalies (fun _ => 0) cfgL1 "S" [1, 1, 1, 1]
      [1, 1, 1, 1, 1, 1, 1] =
    Except.error "operands could not be broadcast together" := rfl

/-- **C4 (amended).** For every square-root model and configuration: an
input series with fewer than `lookback_period + 1` samples makes each of
the four detectors return the empty list; the price and volume detectors
always return a list (they are total); and the volatility and gap
detectors return a list whenever their input arrays have equal lengths —
with mismatched (non-broadcastable) lengths past the guard they instead
raise numpy's broadcast `ValueError`. -/
theorem anomaly_detectors_safe (sq : ℚ → ℚ) (cfg : AnomalyConfig)
    (symbol : String) :
    (∀ prices : List ℚ, prices.length < cfg.lookback_period + 1 →
      detect_price_anomalies sq cfg symbol prices = []) ∧
    (∀ volumes : List ℚ, volumes.length < cfg.lookback_period + 1 →
      detect_volume_anomalies sq cfg symbol volumes = []) ∧
    (∀ highs lows closes : List ℚ, highs.length < cfg.lookback_period + 1 →
      detect_volatility_anomalies sq cfg symbol highs lows closes =
        Except.ok []) ∧
    (∀ opens closes : List ℚ, opens.length < cfg.lookback_period + 1 →
      detect_gap_anomalies sq cfg symbol opens closes = Except.ok []) ∧
    (∀ highs lows closes : List ℚ, highs.length = lows.length →
      highs.length = closes.length →
      ∃ l, detect_volatility_anomalies sq cfg symbol highs lows closes =
        Except.ok l) ∧
    (∀ opens closes : List ℚ, opens.length = closes.length →
      ∃ l, detect_gap_anomalies sq cfg symbol opens closes = Except.ok l) := by
  refine ⟨?_, ?_, ?_, ?_, ?_, ?_⟩
  · intro prices h
    unfold detect_price_anomalies
    rw [if_pos h]
  · intro volumes h
    unfold detect_volume_anomalies
    rw [if_pos h]
  · intro highs lows closes h
    unfold detect_volatility_anomalies
    rw [if_pos h]
  · intro opens closes h
    unfold detect_gap_anomalies
    rw [if_pos (by omega)]
  · intro highs lows closes h1 h2
    unfold detect_volatility_anomalies
    split
    · exact ⟨[], rfl⟩
    · rw [zipB_ok _ _ _ (by simp only [List.length_map, List.length_zipWith, List.length_drop, List.length_dropLast]; omega), except_bind_ok,
        zipB_ok _ _ _ (by simp only [List.length_map, List.length_zipWith, List.length_drop, List.length_dropLast]; omega), except_bind_ok,
        zipB_ok _ _ _ (by simp only [List.length_map, List.length_zipWith, List.length_drop, List.length_dropLast]; omega), except_bind_ok,
        zipB_ok _ _ _ (by simp only [List.length_map, List.length_zipWith, List.length_drop, List.length_dropLast]; omega), except_bind_ok,
        zipB_ok _ _ _ (by simp only [List.length_map, List.length_zipWith, List.length_drop, List.length_dropLast]; omega), except_bind_ok]
      exact ⟨_, rfl⟩
  · intro opens closes h
    unfold detect_gap_anomalies
    split
    · exact ⟨[], rfl⟩
    · rw [zipB_ok _ _ _ (by simp only [List.length_map, List.length_zipWith, List.length_drop, List.length_dropLast]; omega), except_bind_ok,
        zipB_ok _ _ _ (by simp only [List.length_map, List.length_zipWith, List.length_drop, List.length_dropLast]; omega), except_bind_ok]
      exact ⟨_, rfl⟩

/-- Witness for the amended C4: empty series are below any length guard;
aligned length-3 series with `lookback_period = 1` exercise the total
paths of the volatility and gap detectors. -/
theorem anomaly_detectors_safe_witness :
    (([] : List ℚ).length < cfgL1.lookback_period + 1 ∧
     detect_price_anomalies (fun _ => 0) cfgL1 "S" [] = [] ∧
     detect_volume_anomalies (fun _ => 0) cfgL1 "S" [] = [] ∧
     detect_volatility_anomalies (fun _ => 0) cfgL1 "S" [] [] [] =
       Except.ok [] ∧
     detect_gap_anomalies (fun _ => 0) cfgL1 "S" [] [] = Except.ok []) ∧
    (([1, 2, 3] : List ℚ).length = ([1, 2, 3] : List ℚ).length ∧
     (∃ l, detect_volatility_anomalies (fun _ => 0) cfgL1 "S"
        [1, 2, 3] [1, 2, 3] [1, 2, 3] = Except.ok l) ∧
     (∃ l, detect_gap_anomalies (fun _ => 0) cfgL1 "S" [1, 2, 3] [1, 2, 3] =
        Except.ok l)) := by
  have hlen : ([] : List ℚ).length < cfgL1.lookback_period + 1 := by decide
  refine ⟨⟨hlen, ?_, ?_, ?_, ?_⟩, rfl, ?_, ?_⟩
  · exact (anomaly_detectors_safe (fun _ => 0) cfgL1 "S").1 [] hlen
  · exact (anomaly_detectors_safe (fun _ => 0) cfgL1 "S").2.1 [] hlen
  · exact (anomaly_detectors_safe (fun _ => 0) cfgL1 "S").2.2.1 [] [] [] hlen
  · exact (anomaly_detectors_safe (fun _ => 0) cfgL1 "S").2.2.2.1 [] [] hlen
  · exact (anomaly_detectors_safe (fun _ => 0) cfgL1 "S").2.2.2.2.1
      [1, 2, 3] [1, 2, 3] [1, 2, 3] rfl rfl
  · exact (anomaly_detectors_safe (fun _ => 0) cfgL1 "S").2.2.2.2.2
      [1, 2, 3] [1, 2, 3] rfl

end Jejakcuan
